import Mathlib

/-!
Shallow embedding of the CTK widgets reviewed in `src/Libs/Widgets/ctkPopupWidget.h`
(the `ctkPopupWidget` class declaration together with the implementation of
`ctkCollapsibleGroupBox`) and of the plugin build configuration in
`src/Libs/PluginFramework/Testing/FrameworkTestPlugins/pluginSL3_test/CMakeLists.txt`.

The collapsible group box manipulates, per child widget, the Qt attributes
`WA_WState_ExplicitShowHide` and `WA_WState_Hidden` and the dynamic property
`"visibilityToParent"`; on the group box itself it uses `WA_WState_Created`,
the `checked`/`checkable` state, the geometry (`size`, `maximumHeight`) and the
private fields `OldSize`, `MaxHeight`, `ForcingVisibility`, `IsStateCreated`.
We embed exactly those observables.  `QWidget::setVisible` on a filtered child
sends a `ShowToParent`/`HideToParent` event through the installed event filter
(this is the behaviour the source comments at lines 219-224 and 384-387 rely
on), which closes a recursion loop
`setChildVisibility -> setVisible -> eventFilter -> setChildVisibility`;
the embedding makes that loop explicit with a fuel parameter, so that
claims about its termination become fuel-independence theorems.
-/

namespace CTK

/-- The two Qt child events the group box's event filter inspects
(`QEvent::ShowToParent`, `QEvent::HideToParent`). -/
inductive QEventType where
  | ShowToParent
  | HideToParent
deriving Repr, DecidableEq

/-- The per-child observables used by `ctkCollapsibleGroupBox`:
the Qt widget attributes `WA_WState_ExplicitShowHide` and `WA_WState_Hidden`
and the dynamic property `"visibilityToParent"` (a `QVariant`: `none` models an
invalid/unset variant, `some b` a boolean value `b`).  A child counts as hidden
exactly when `hiddenAttr` is set. -/
structure ChildWidget where
  explicitShowHide : Bool
  hiddenAttr : Bool
  visibilityToParent : Option Bool
deriving Repr, DecidableEq

/-- A widget size (`QSize`). -/
structure Size where
  w : Nat
  h : Nat
deriving Repr, DecidableEq

/-- The group-box-level observables: the `QGroupBox` checkable/checked state,
the `WA_WState_Created` attribute, the geometry (`maximumHeight`, `size`) and
the four fields of `ctkCollapsibleGroupBoxPrivate` (`OldSize`, `MaxHeight`,
`ForcingVisibility`, `IsStateCreated`). -/
structure GroupBox where
  checkable : Bool
  checked : Bool
  createdAttr : Bool
  maxHeightQt : Nat
  sizeQt : Size
  OldSize : Size
  MaxHeight : Nat
  ForcingVisibility : Bool
  IsStateCreated : Bool
deriving Repr, DecidableEq

/-- Modelled from the spec: `ctkCollapsibleGroupBox::collapsed()` is declared in
`ctkCollapsibleGroupBox.h`, which is not part of the reviewed material; the
implementation file calls it from `setChildVisibility`.  Per the spec, the box
"hides/shows its children based on a collapsed/expanded toggle state", and the
constructor connects `toggled(bool)` to `expand(bool)`, so the box is collapsed
exactly when it is not checked. -/
def collapsed (gb : GroupBox) : Bool :=
  !gb.checked

mutual

/-- `QWidget::setVisible` called on a child of the group box (the group box has
installed its event filter on every widget child).  Following the Qt semantics
the source comments describe (lines 219-224): if the widget already has
`WA_WState_ExplicitShowHide` and its `WA_WState_Hidden` attribute already
matches the request, the call is a no-op; otherwise both attributes are
updated and a `ShowToParent`/`HideToParent` event is sent through the
installed event filter. -/
def qtSetVisibleChild : Nat → GroupBox → ChildWidget → Bool → GroupBox × ChildWidget
  | 0, gb, c, _ => (gb, c)
  | fuel + 1, gb, c, v =>
    if c.explicitShowHide && (c.hiddenAttr == !v) then
      (gb, c)
    else
      let c1 : ChildWidget := { c with explicitShowHide := true, hiddenAttr := !v }
      let ev := if v then QEventType.ShowToParent else QEventType.HideToParent
      let r := eventFilter fuel gb c1 ev
      (r.1, r.2.1)

/-- `ctkCollapsibleGroupBox::eventFilter` (lines 410-442), acting on the child
the event was sent to.  If `ForcingVisibility` is set it returns `false` at
once; otherwise a `ShowToParent` event records `visibilityToParent = true` and
re-applies `setChildVisibility`, and a `HideToParent` event records
`visibilityToParent = false`.  The final `QGroupBox::eventFilter` call is
`QObject::eventFilter`, which returns `false` and changes nothing. -/
def eventFilter : Nat → GroupBox → ChildWidget → QEventType → GroupBox × ChildWidget × Bool
  | 0, gb, c, _ => (gb, c, false)
  | fuel + 1, gb, c, e =>
    if gb.ForcingVisibility then
      (gb, c, false)
    else
      match e with
      | QEventType.ShowToParent =>
        let c1 : ChildWidget := { c with visibilityToParent := some true }
        let r := setChildVisibility fuel gb c1
        (r.1, r.2, false)
      | QEventType.HideToParent =>
        (gb, { c with visibilityToParent := some false }, false)

/-- `ctkCollapsibleGroupBoxPrivate::setChildVisibility` (lines 216-250):
a no-op while `WA_WState_Created` is unset; otherwise it raises
`ForcingVisibility`, computes the target visibility from `collapsed()` and the
child's `visibilityToParent` property, calls `setVisible` on the child, then
clears `WA_WState_ExplicitShowHide` unless `visibilityToParent` is a valid
`false`, and finally lowers `ForcingVisibility`. -/
def setChildVisibility : Nat → GroupBox → ChildWidget → GroupBox × ChildWidget
  | 0, gb, c => (gb, c)
  | fuel + 1, gb, c =>
    if !gb.createdAttr then
      (gb, c)
    else
      let gb1 : GroupBox := { gb with ForcingVisibility := true }
      let visible0 := !collapsed gb1
      let visible := if c.visibilityToParent == some false then false else visible0
      let r := qtSetVisibleChild fuel gb1 c visible
      let c2 := r.2
      let c3 := if c2.visibilityToParent == some false then c2
                else { c2 with explicitShowHide := false }
      ({ r.1 with ForcingVisibility := false }, c3)

end

/-- The collapsible group box together with its direct children, in order:
`some c` is a widget child (carrying the observables of `ChildWidget`), `none`
a non-widget `QObject` child (a layout, an action, ...), which `expand`'s
`isWidgetType()` test and `setVisible`'s `qobject_cast<QWidget*>` skip.
Grandchildren are not elements of the list, matching `this->children()`. -/
structure GBState where
  gb : GroupBox
  children : List (Option ChildWidget)
deriving Repr, DecidableEq

/-- Apply a state-threading per-child operation to every widget child of the
list in order, skipping non-widget children. -/
def applyToChildren (f : GroupBox → ChildWidget → GroupBox × ChildWidget) :
    GroupBox → List (Option ChildWidget) → GroupBox × List (Option ChildWidget)
  | gb, [] => (gb, [])
  | gb, none :: rest =>
    let r := applyToChildren f gb rest
    (r.1, none :: r.2)
  | gb, some c :: rest =>
    let rc := f gb c
    let r := applyToChildren f rc.1 rest
    (r.1, some rc.2 :: r.2)

/-- The `QGroupBox::setVisible(show)` base call made at line 389. Following the
source comments (lines 384-387): it eventually calls `QWidget::showChildren()`
or `hideChildren()`, which generate `ShowToParent`/`HideToParent` events on the
children; those events pass through the installed event filter.  Showing also
creates the widget (`WA_WState_Created`) when it is not created yet. -/
def qtBaseSetVisibleGB (fuel : Nat) (gb : GroupBox) (children : List (Option ChildWidget))
    (sh : Bool) : GroupBox × List (Option ChildWidget) :=
  let gb1 : GroupBox := { gb with createdAttr := gb.createdAttr || sh }
  applyToChildren
    (fun g c =>
      let r := eventFilter fuel g c
        (if sh then QEventType.ShowToParent else QEventType.HideToParent)
      (r.1, r.2.1))
    gb1 children

/-- `ctkCollapsibleGroupBox::setVisible` (lines 381-407): raise
`ForcingVisibility` around the `QGroupBox::setVisible` base call, then, the
first time the widget is found created (`IsStateCreated` latch), run
`setChildVisibility` on every widget child. -/
def ctkSetVisible (fuel : Nat) (s : GBState) (sh : Bool) : GBState :=
  let gbA : GroupBox := { s.gb with ForcingVisibility := true }
  let base := qtBaseSetVisibleGB fuel gbA s.children sh
  let gbC : GroupBox := { base.1 with ForcingVisibility := false }
  if !gbC.IsStateCreated && gbC.createdAttr then
    let gbD : GroupBox := { gbC with IsStateCreated := true }
    let r := applyToChildren (setChildVisibility fuel) gbD base.2
    ⟨r.1, r.2⟩
  else
    ⟨gbC, base.2⟩

/-- `ctkCollapsibleGroupBox::expand` (lines 277-305): when collapsing, record
the current size in `OldSize`; update the visibility of every direct widget
child; when expanding, restore the maximum height from `MaxHeight` and resize
to `OldSize`, otherwise record the maximum height in `MaxHeight` and set the
maximum height to 22. -/
def expand (fuel : Nat) (s : GBState) (e : Bool) : GBState :=
  let gb0 : GroupBox := if !e then { s.gb with OldSize := s.gb.sizeQt } else s.gb
  let r := applyToChildren (setChildVisibility fuel) gb0 s.children
  if e then
    ⟨{ r.1 with maxHeightQt := r.1.MaxHeight, sizeQt := r.1.OldSize }, r.2⟩
  else
    ⟨{ r.1 with MaxHeight := r.1.maxHeightQt, maxHeightQt := 22 }, r.2⟩

/-- `ctkCollapsibleGroupBoxPrivate::init` (lines 198-214), run by both
constructors: make the box checkable, connect `toggled(bool)` to
`expand(bool)` (the connection itself is modelled by `setChecked` below), and
record the current maximum height in `MaxHeight`.  (The style/stylesheet setup
only affects painting and is not an observable of this model.) -/
def init (s : GBState) : GBState :=
  ⟨{ s.gb with checkable := true, MaxHeight := s.gb.maxHeightQt }, s.children⟩

/-- `QGroupBox::setChecked` together with the `toggled(bool) -> expand(bool)`
connection made by `init`: when the box is checkable and the checked state
actually changes, the state is updated and the `toggled` signal synchronously
invokes the `expand` slot with the new value. -/
def setChecked (fuel : Nat) (s : GBState) (b : Bool) : GBState :=
  if s.gb.checkable && !(s.gb.checked == b) then
    expand fuel ⟨{ s.gb with checked := b }, s.children⟩ b
  else
    s

/-- `ctkCollapsibleGroupBox::childEvent` (lines 355-378) for a `ChildAdded`
event whose child is a widget: if the child arrives already explicitly hidden
(`WA_WState_ExplicitShowHide` and `WA_WState_Hidden` both set), record
`visibilityToParent = false`; install the event filter on the child (implicit
in this model: every widget child is filtered); apply the current
collapsed/expanded state via `setChildVisibility`; the child becomes part of
the children list. -/
def childEventAdded (fuel : Nat) (s : GBState) (newChild : ChildWidget) : GBState :=
  let c1 : ChildWidget :=
    if newChild.explicitShowHide && newChild.hiddenAttr then
      { newChild with visibilityToParent := some false }
    else
      newChild
  let r := setChildVisibility fuel s.gb c1
  ⟨r.1, s.children ++ [some r.2]⟩

/-- Qt mouse buttons relevant to the Qt-before-4.6 handlers. -/
inductive MouseButton where
  | leftButton
  | rightButton
  | midButton
deriving Repr, DecidableEq

/-- The `QStyle::SubControl` values `hitTestComplexControl` can report for a
group box. -/
inductive SubControl where
  | groupBoxCheckBox
  | groupBoxLabel
  | groupBoxFrame
  | groupBoxContents
  | scNone
deriving Repr, DecidableEq

/-- `ctkCollapsibleGroupBox::mousePressEvent` (Qt before 4.6, lines 322-329):
a non-left button press is ignored (`event->ignore()`, modelled by the `false`
acceptance flag) and nothing else happens; a left press is accepted and does
nothing ("no animation").  The returned `Bool` is the event's accepted flag
(mouse events arrive accepted by default). -/
def mousePressEvent (s : GBState) (button : MouseButton) : GBState × Bool :=
  if !(button == MouseButton.leftButton) then
    (s, false)
  else
    (s, true)

/-- `ctkCollapsibleGroupBox::mouseReleaseEvent` (Qt before 4.6, lines
332-350): a non-left release is ignored; a left release hit-tests the release
position against the group box subcontrols (`hitTest` abstracts
`style()->hitTestComplexControl(CC_GroupBox, ...)` at the event position) and
toggles the checked state exactly when the box is checkable and the position
hits the label or the check box. -/
def mouseReleaseEvent (fuel : Nat) (hitTest : Nat × Nat → SubControl) (s : GBState)
    (button : MouseButton) (pos : Nat × Nat) : GBState × Bool :=
  if !(button == MouseButton.leftButton) then
    (s, false)
  else
    let released := hitTest pos
    let toggle := s.gb.checkable &&
      (released == SubControl.groupBoxLabel || released == SubControl.groupBoxCheckBox)
    if toggle then
      (setChecked fuel s (!s.gb.checked), true)
    else
      (s, true)

/-! ## Popup widget

Only the class declaration of `ctkPopupWidget` is part of the reviewed
material (lines 21-101 of `ctkPopupWidget.h`); the implementation file
(`ctkPopupWidget.cpp`) is absent, so the behaviour of `showPopup()`,
`hidePopup()`, `setBaseWidget` and the fade animation is modelled from the
spec and the header's own documentation comments.  The one function whose code
is present is the inline slot `showPopup(bool)` (lines 89-99). -/

/-- A widget rectangle, for popup geometry. -/
structure Rect where
  x : Int
  y : Int
  w : Nat
  h : Nat
deriving Repr, DecidableEq

/-- Modelled from the spec: the phase of the popup's fade transition.  The
header documents that `showPopup`/`hidePopup` run a roughly 300ms fading
effect, so between fully closed and fully open the popup can be `opening` or
`closing`. -/
inductive PopupPhase where
  | closedPhase
  | opening
  | openPhase
  | closing
deriving Repr, DecidableEq

/-- Modelled from the spec: the observable state of a `ctkPopupWidget`
(its implementation file is not in the reviewed material).  `base` is the
geometry of the base widget the popup is attached to (`none` when no base
widget is set), `phase` the fade-transition phase, `geometry` the popup's own
rectangle. -/
structure PopupState where
  base : Option Rect
  phase : PopupPhase
  geometry : Rect
deriving Repr, DecidableEq

/-- Modelled from the spec: `ctkPopupWidget::setBaseWidget` attaches the popup
to a base widget. -/
def setBaseWidget (s : PopupState) (b : Option Rect) : PopupState :=
  { s with base := b }

/-- Modelled from the spec: `ctkPopupWidget::baseWidget` returns the widget
the popup is attached to. -/
def baseWidget (s : PopupState) : Option Rect :=
  s.base

/-- Modelled from the spec and the header documentation: the popup "opens
right under `baseWidget`" and, when the size policy allows it, takes the base
widget's width; position the popup's rectangle directly below the base
widget's rectangle. -/
def underBase (b : Rect) (popupH : Nat) : Rect :=
  { x := b.x, y := b.y + Int.ofNat b.h, w := b.w, h := popupH }

/-- Modelled from the spec: `ctkPopupWidget::showPopup()` — "Open the popup if
closed or closing.  It takes around 300ms for the fading effect to open the
popup."  From a closed or closing phase it places the popup right under the
base widget (when one is set) and starts the opening fade; otherwise it does
nothing. -/
def showPopup (s : PopupState) : PopupState :=
  if s.phase == PopupPhase.closedPhase || s.phase == PopupPhase.closing then
    { s with
      phase := PopupPhase.opening
      geometry :=
        match s.base with
        | some b => underBase b s.geometry.h
        | none => s.geometry }
  else
    s

/-- Modelled from the spec: `ctkPopupWidget::hidePopup()` — "Hide the popup if
open or opening.  It takes around 300ms for the fading effect to hide the
popup."  From an open or opening phase it starts the closing fade; otherwise
it does nothing. -/
def hidePopup (s : PopupState) : PopupState :=
  if s.phase == PopupPhase.openPhase || s.phase == PopupPhase.opening then
    { s with phase := PopupPhase.closing }
  else
    s

/-- The inline slot `ctkPopupWidget::showPopup(bool show)` (lines 89-99 of the
header, the one popup member whose code is in the reviewed material):
`if (show) this->showPopup(); else this->hidePopup();`. -/
def showPopupBool (s : PopupState) (sh : Bool) : PopupState :=
  if sh then
    showPopup s
  else
    hidePopup s

/-! ## Plugin test-module build configuration

Embedding of
`src/Libs/PluginFramework/Testing/FrameworkTestPlugins/pluginSL3_test/CMakeLists.txt`
as a list of CMake commands plus a tiny variable-resolution step for the
`ctkMacroBuildPlugin` invocation. -/

/-- The CMake commands a plugin `CMakeLists.txt` may contain.  `otherCmd`
stands for any command other than the four the reviewed file uses (so that
"the file contains no plugin loading or dependency-resolution logic" is a
contentful statement about the transcription). -/
inductive CMakeCmd where
  | projectCmd (name : String)
  | setCmd (var : String) (vals : List String)
  | getTargetLibrariesCmd (outVar : String)
  | buildPluginCmd (nameVar exportVar srcsVar mocVar uiVar resVar libsVar : String)
      (testPlugin : Bool)
  | otherCmd (name : String) (args : List String)
deriving Repr, DecidableEq

/-- Transcription of the reviewed `CMakeLists.txt` of `pluginSL3_test`,
command by command (lines 1-34). -/
def pluginSL3File : List CMakeCmd :=
  [ CMakeCmd.projectCmd "pluginSL3_test",
    CMakeCmd.setCmd "PLUGIN_export_directive" ["pluginSL3_test_EXPORT"],
    CMakeCmd.setCmd "PLUGIN_SRCS" ["ctkActivatorSL3.cpp"],
    CMakeCmd.setCmd "PLUGIN_MOC_SRCS" ["ctkActivatorSL3_p.h"],
    CMakeCmd.setCmd "PLUGIN_UI_FORMS" [],
    CMakeCmd.setCmd "PLUGIN_resources" [],
    CMakeCmd.getTargetLibrariesCmd "PLUGIN_target_libraries",
    CMakeCmd.buildPluginCmd "PROJECT_NAME" "PLUGIN_export_directive" "PLUGIN_SRCS"
      "PLUGIN_MOC_SRCS" "PLUGIN_UI_FORMS" "PLUGIN_resources" "PLUGIN_target_libraries"
      true ]

/-- The variable environment produced by running the commands in order:
`project` binds `PROJECT_NAME`, `set` binds its variable, and
`ctkFunctionGetTargetLibraries` binds its output variable to a value computed
elsewhere (opaque here, marked `computed_target_libraries`). -/
def cmakeEnv : List CMakeCmd → List (String × List String)
  | [] => []
  | CMakeCmd.projectCmd n :: rest => cmakeEnv rest ++ [("PROJECT_NAME", [n])]
  | CMakeCmd.setCmd v vals :: rest => cmakeEnv rest ++ [(v, vals)]
  | CMakeCmd.getTargetLibrariesCmd v :: rest =>
      cmakeEnv rest ++ [(v, ["computed_target_libraries"])]
  | CMakeCmd.buildPluginCmd _ _ _ _ _ _ _ _ :: rest => cmakeEnv rest
  | CMakeCmd.otherCmd _ _ :: rest => cmakeEnv rest

/-- Look up a variable in the environment (later bindings shadow earlier
ones, hence the append order in `cmakeEnv`; an unset variable is empty). -/
def lookupVar (env : List (String × List String)) (v : String) : List String :=
  match env.find? (fun p => p.1 == v) with
  | some p => p.2
  | none => []

/-- A resolved `ctkMacroBuildPlugin` invocation. -/
structure PluginInvocation where
  name : List String
  exportDirective : List String
  srcs : List String
  mocSrcs : List String
  uiForms : List String
  resources : List String
  targetLibraries : List String
  testPlugin : Bool
deriving Repr, DecidableEq

/-- Resolve the first `ctkMacroBuildPlugin` invocation of a command list
against the environment of the whole file. -/
def resolvedPlugin (file : List CMakeCmd) : Option PluginInvocation :=
  let env := cmakeEnv file
  match file.find? (fun c =>
      match c with
      | CMakeCmd.buildPluginCmd _ _ _ _ _ _ _ _ => true
      | _ => false) with
  | some (CMakeCmd.buildPluginCmd nv ev sv mv uv rv lv tp) =>
      some
        { name := lookupVar env nv
          exportDirective := lookupVar env ev
          srcs := lookupVar env sv
          mocSrcs := lookupVar env mv
          uiForms := lookupVar env uv
          resources := lookupVar env rv
          targetLibraries := lookupVar env lv
          testPlugin := tp }
  | _ => none

/-- A command is pure build declaration/configuration (as opposed to an
`otherCmd`, which could hold loading or resolution logic). -/
def CMakeCmd.isBuildDecl : CMakeCmd → Bool
  | CMakeCmd.projectCmd _ => true
  | CMakeCmd.setCmd _ _ => true
  | CMakeCmd.getTargetLibrariesCmd _ => true
  | CMakeCmd.buildPluginCmd _ _ _ _ _ _ _ _ => true
  | CMakeCmd.otherCmd _ _ => false


/-! ## Concrete instances (used by witness theorems) -/

/-- A concrete created, expanded, checkable group box, for witnesses. -/
def gbSample : GroupBox :=
  ⟨true, true, true, 100, ⟨30, 40⟩, ⟨0, 0⟩, 0, false, false⟩

/-- `gbSample` while it is itself changing a child's visibility. -/
def gbSampleForcing : GroupBox :=
  { gbSample with ForcingVisibility := true }

/-- A child widget with no explicit visibility request. -/
def cSample : ChildWidget :=
  ⟨false, false, none⟩

/-- A child widget the user explicitly hid. -/
def cSampleHidden : ChildWidget :=
  ⟨true, true, some false⟩

/-- A concrete group box state with a widget child, a non-widget child and an
explicitly hidden widget child. -/
def sSample : GBState :=
  ⟨gbSample, [some cSample, none, some cSampleHidden]⟩

/-- A collapsed (unchecked) created group box with one plain widget child. -/
def sCollapsed : GBState :=
  ⟨{ gbSample with checked := false }, [some cSample]⟩

/-- A concrete popup: closed, attached to a base widget at (5, 7) of size
50 x 20, popup rectangle of height 80. -/
def popSample : PopupState :=
  ⟨some ⟨5, 7, 50, 20⟩, PopupPhase.closedPhase, ⟨0, 0, 50, 80⟩⟩

/-! ## General lemmas -/

theorem eventFilter_forcing (fuel : Nat) (gb : GroupBox) (c : ChildWidget) (e : QEventType)
    (h : gb.ForcingVisibility = true) : eventFilter fuel gb c e = (gb, c, false) := by
  cases fuel with
  | zero => simp [eventFilter]
  | succ f => simp [eventFilter, h]

theorem qtSetVisible_forcing_gb (fuel : Nat) (gb : GroupBox) (c : ChildWidget) (v : Bool)
    (h : gb.ForcingVisibility = true) : (qtSetVisibleChild fuel gb c v).1 = gb := by
  cases fuel with
  | zero => simp [qtSetVisibleChild]
  | succ f =>
    by_cases hc : c.explicitShowHide && (c.hiddenAttr == !v)
    · simp [qtSetVisibleChild, hc]
    · simp [qtSetVisibleChild, hc, eventFilter_forcing _ _ _ _ h]

theorem qtSetVisible_forcing (fuel : Nat) (gb : GroupBox) (c : ChildWidget) (v : Bool)
    (h : gb.ForcingVisibility = true) :
    qtSetVisibleChild (fuel + 1) gb c v =
      (gb, if c.explicitShowHide && (c.hiddenAttr == !v) then c
           else { c with explicitShowHide := true, hiddenAttr := !v }) := by
  by_cases hc : c.explicitShowHide && (c.hiddenAttr == !v)
  · simp [qtSetVisibleChild, hc]
  · simp [qtSetVisibleChild, hc, eventFilter_forcing _ _ _ _ h]

/-- Characterization of what setChildVisibility does to the child, as a pure function. -/
def scvChild (checked : Bool) (c : ChildWidget) : ChildWidget :=
  let visible := if c.visibilityToParent == some false then false else checked
  let c2 := if c.explicitShowHide && (c.hiddenAttr == !visible) then c
            else { c with explicitShowHide := true, hiddenAttr := !visible }
  if c2.visibilityToParent == some false then c2 else { c2 with explicitShowHide := false }

theorem scv_notCreated (fuel : Nat) (gb : GroupBox) (c : ChildWidget)
    (h : gb.createdAttr = false) : setChildVisibility fuel gb c = (gb, c) := by
  cases fuel with
  | zero => simp [setChildVisibility]
  | succ f => simp [setChildVisibility, h]

theorem scv_created (fuel : Nat) (gb : GroupBox) (c : ChildWidget)
    (h : gb.createdAttr = true) :
    setChildVisibility (fuel + 2) gb c =
      ({ gb with ForcingVisibility := false }, scvChild gb.checked c) := by
  rw [setChildVisibility]
  simp only [h, Bool.not_true, Bool.false_eq_true, if_false]
  rw [qtSetVisible_forcing _ _ _ _ rfl]
  simp [scvChild, collapsed]



theorem scv_fuel_indep (fuel : Nat) (gb : GroupBox) (c : ChildWidget) :
    setChildVisibility (fuel + 2) gb c = setChildVisibility 2 gb c := by
  by_cases h : gb.createdAttr
  · rw [scv_created _ _ _ h, scv_created 0 _ _ h]
  · rw [scv_notCreated _ _ _ (by simpa using h), scv_notCreated _ _ _ (by simpa using h)]

theorem eventFilter_fuel_indep (fuel : Nat) (gb : GroupBox) (c : ChildWidget) (e : QEventType) :
    eventFilter (fuel + 3) gb c e = eventFilter 3 gb c e := by
  by_cases h : gb.ForcingVisibility
  · rw [eventFilter_forcing _ _ _ _ h, eventFilter_forcing _ _ _ _ h]
  · cases e with
    | ShowToParent =>
      rw [eventFilter, eventFilter]
      simp only [h, if_false, scv_fuel_indep]
    | HideToParent =>
      rw [eventFilter, eventFilter]

theorem qtSetVisible_fuel_indep (fuel : Nat) (gb : GroupBox) (c : ChildWidget) (v : Bool) :
    qtSetVisibleChild (fuel + 4) gb c v = qtSetVisibleChild 4 gb c v := by
  by_cases hc : c.explicitShowHide && (c.hiddenAttr == !v)
  · rw [qtSetVisibleChild, qtSetVisibleChild]
    simp [hc]
  · rw [qtSetVisibleChild, qtSetVisibleChild]
    simp only [hc, if_false]
    rw [eventFilter_fuel_indep]



theorem applyToChildren_map (f : GroupBox → ChildWidget → GroupBox × ChildWidget)
    (g : ChildWidget → ChildWidget) (gb : GroupBox)
    (h : ∀ c, f gb c = (gb, g c)) :
    ∀ ch, applyToChildren f gb ch = (gb, ch.map (Option.map g))
  | [] => by simp [applyToChildren]
  | none :: rest => by
    simp [applyToChildren, applyToChildren_map f g gb h rest]
  | some c :: rest => by
    simp [applyToChildren, h c, applyToChildren_map f g gb h rest]

theorem gb_set_forcing_false (gb : GroupBox) (h : gb.ForcingVisibility = false) :
    ({ gb with ForcingVisibility := false } : GroupBox) = gb := by
  cases gb
  simp_all

theorem applyToChildren_scv (fuel : Nat) (gb : GroupBox) (ch : List (Option ChildWidget))
    (hcr : gb.createdAttr = true) (hf : gb.ForcingVisibility = false) :
    applyToChildren (setChildVisibility (fuel + 2)) gb ch =
      (gb, ch.map (Option.map (scvChild gb.checked))) := by
  apply applyToChildren_map
  intro c
  rw [scv_created _ _ _ hcr, gb_set_forcing_false _ hf]

theorem scv_gb_cases (fuel : Nat) (gb : GroupBox) (c : ChildWidget) :
    (setChildVisibility fuel gb c).1 = gb ∨
    (setChildVisibility fuel gb c).1 = { gb with ForcingVisibility := false } := by
  cases fuel with
  | zero => left; simp [setChildVisibility]
  | succ f =>
    by_cases h : gb.createdAttr
    · right
      rw [setChildVisibility]
      simp only [h, Bool.not_true, Bool.false_eq_true, if_false]
      rw [qtSetVisible_forcing_gb f _ _ _ rfl]
    · left
      rw [scv_notCreated _ _ _ (by simpa using h)]

/-- All group-box fields other than `ForcingVisibility`, bundled. -/
def gbCore (gb : GroupBox) : Bool × Bool × Bool × Nat × Size × Size × Nat × Bool :=
  (gb.checkable, gb.checked, gb.createdAttr, gb.maxHeightQt, gb.sizeQt, gb.OldSize,
   gb.MaxHeight, gb.IsStateCreated)

theorem scv_core (fuel : Nat) (gb : GroupBox) (c : ChildWidget) :
    gbCore (setChildVisibility fuel gb c).1 = gbCore gb := by
  rcases scv_gb_cases fuel gb c with h | h <;> simp [h, gbCore]

theorem applyToChildren_scv_core (fuel : Nat) (gb : GroupBox) :
    ∀ ch, gbCore (applyToChildren (setChildVisibility fuel) gb ch).1 = gbCore gb
  | [] => by simp [applyToChildren]
  | none :: rest => by
    simp only [applyToChildren]
    exact applyToChildren_scv_core fuel gb rest
  | some c :: rest => by
    simp only [applyToChildren]
    rw [applyToChildren_scv_core fuel _ rest, scv_core]



theorem expand_children (fuel : Nat) (s : GBState) (e : Bool)
    (hcr : s.gb.createdAttr = true) (hf : s.gb.ForcingVisibility = false) :
    (expand (fuel + 2) s e).children =
      s.children.map (Option.map (scvChild s.gb.checked)) := by
  unfold expand
  cases e with
  | false =>
    simp only [Bool.not_false, if_true, if_false, Bool.false_eq_true]
    rw [applyToChildren_scv _ _ _ (by simpa using hcr) (by simpa using hf)]
  | true =>
    simp only [Bool.not_true, if_true, if_false, Bool.true_eq_false, Bool.false_eq_true]
    rw [applyToChildren_scv _ _ _ hcr hf]

theorem scvChild_hiddenAttr (checked : Bool) (c : ChildWidget) :
    (scvChild checked c).hiddenAttr =
      !(if c.visibilityToParent == some false then false else checked) := by
  rcases c with ⟨esh, hid, vtp⟩
  rcases vtp with _ | b
  · cases esh <;> cases hid <;> cases checked <;> rfl
  · cases b <;> cases esh <;> cases hid <;> cases checked <;> rfl

theorem scvChild_vtp (checked : Bool) (c : ChildWidget) :
    (scvChild checked c).visibilityToParent = c.visibilityToParent := by
  rcases c with ⟨esh, hid, vtp⟩
  rcases vtp with _ | b
  · cases esh <;> cases hid <;> cases checked <;> rfl
  · cases b <;> cases esh <;> cases hid <;> cases checked <;> rfl



theorem qtBase_forcing (fuel : Nat) (gb : GroupBox) (ch : List (Option ChildWidget)) (sh : Bool)
    (h : gb.ForcingVisibility = true) :
    qtBaseSetVisibleGB fuel gb ch sh = ({ gb with createdAttr := gb.createdAttr || sh }, ch) := by
  unfold qtBaseSetVisibleGB
  have h1 : ({ gb with createdAttr := gb.createdAttr || sh } : GroupBox).ForcingVisibility
      = true := h
  rw [applyToChildren_map _ id _ (fun c => by rw [eventFilter_forcing _ _ _ _ h1]; rfl)]
  simp

theorem ctkSetVisible_latched (fuel : Nat) (s : GBState) (sh : Bool)
    (hl : s.gb.IsStateCreated = true) (hf : s.gb.ForcingVisibility = false) :
    ctkSetVisible fuel s sh =
      ⟨{ s.gb with createdAttr := s.gb.createdAttr || sh }, s.children⟩ := by
  rcases s with ⟨gb, ch⟩
  simp only at hl hf
  rcases gb with ⟨ckb, ck, cr, mh, sz, os, mhs, fv, isc⟩
  simp only at hl hf
  subst hl hf
  simp [ctkSetVisible, qtBase_forcing]

theorem ctkSetVisible_fixup (fuel : Nat) (s : GBState) (sh : Bool)
    (hl : s.gb.IsStateCreated = false) (hc : s.gb.createdAttr || sh = true)
    (hf : s.gb.ForcingVisibility = false) :
    ctkSetVisible (fuel + 2) s sh =
      ⟨{ s.gb with createdAttr := true, IsStateCreated := true },
       s.children.map (Option.map (scvChild s.gb.checked))⟩ := by
  rcases s with ⟨gb, ch⟩
  simp only at hl hc hf
  rcases gb with ⟨ckb, ck, cr, mh, sz, os, mhs, fv, isc⟩
  simp only at hl hc hf
  subst hl hf
  cases ck <;> cases cr <;> cases sh <;>
    simp_all [ctkSetVisible, qtBase_forcing, applyToChildren_scv]

theorem ctkSetVisible_precreate (fuel : Nat) (s : GBState)
    (hc : s.gb.createdAttr = false) (hf : s.gb.ForcingVisibility = false) :
    ctkSetVisible fuel s false = s := by
  rcases s with ⟨gb, ch⟩
  simp only at hc hf
  rcases gb with ⟨ckb, ck, cr, mh, sz, os, mhs, fv, isc⟩
  simp only at hc hf
  subst hc hf
  simp [ctkSetVisible, qtBase_forcing]


theorem qtSetVisible_vtp (fuel : Nat) (gb : GroupBox) (c : ChildWidget) (v : Bool)
    (h : gb.ForcingVisibility = true) :
    (qtSetVisibleChild fuel gb c v).2.visibilityToParent = c.visibilityToParent := by
  cases fuel with
  | zero => simp [qtSetVisibleChild]
  | succ f =>
    by_cases hc : c.explicitShowHide && (c.hiddenAttr == !v)
    · simp [qtSetVisibleChild, hc]
    · simp [qtSetVisibleChild, hc, eventFilter_forcing _ _ _ _ h]

theorem scv_vtp (fuel : Nat) (gb : GroupBox) (c : ChildWidget) :
    (setChildVisibility fuel gb c).2.visibilityToParent = c.visibilityToParent := by
  cases fuel with
  | zero => simp [setChildVisibility]
  | succ f =>
    by_cases h : gb.createdAttr
    · rw [setChildVisibility]
      simp only [h, Bool.not_true, Bool.false_eq_true, if_false]
      have hv := qtSetVisible_vtp f { gb with ForcingVisibility := true } c
        (if c.visibilityToParent == some false then false else !collapsed { gb with ForcingVisibility := true }) rfl
      by_cases h2 : (qtSetVisibleChild f { gb with ForcingVisibility := true } c
          (if c.visibilityToParent == some false then false
           else !collapsed { gb with ForcingVisibility := true })).2.visibilityToParent = some false
      · simp only [h2, hv.symm.trans h2]
        simp_all
      · simp_all
    · rw [scv_notCreated _ _ _ (by simpa using h)]

theorem expand_gb_false (fuel : Nat) (s : GBState) :
    (expand fuel s false).gb.maxHeightQt = 22 ∧
    (expand fuel s false).gb.MaxHeight = s.gb.maxHeightQt ∧
    (expand fuel s false).gb.OldSize = s.gb.sizeQt ∧
    (expand fuel s false).gb.sizeQt = s.gb.sizeQt ∧
    (expand fuel s false).gb.checked = s.gb.checked ∧
    (expand fuel s false).gb.checkable = s.gb.checkable ∧
    (expand fuel s false).gb.createdAttr = s.gb.createdAttr ∧
    (expand fuel s false).gb.IsStateCreated = s.gb.IsStateCreated := by
  have h := applyToChildren_scv_core fuel { s.gb with OldSize := s.gb.sizeQt } s.children
  simp only [gbCore, Prod.mk.injEq] at h
  obtain ⟨h1, h2, h3, h4, h5, h6, h7, h8⟩ := h
  simp_all [expand]

theorem expand_gb_true (fuel : Nat) (s : GBState) :
    (expand fuel s true).gb.maxHeightQt = s.gb.MaxHeight ∧
    (expand fuel s true).gb.sizeQt = s.gb.OldSize ∧
    (expand fuel s true).gb.MaxHeight = s.gb.MaxHeight ∧
    (expand fuel s true).gb.OldSize = s.gb.OldSize ∧
    (expand fuel s true).gb.checked = s.gb.checked ∧
    (expand fuel s true).gb.checkable = s.gb.checkable ∧
    (expand fuel s true).gb.createdAttr = s.gb.createdAttr ∧
    (expand fuel s true).gb.IsStateCreated = s.gb.IsStateCreated := by
  have h := applyToChildren_scv_core fuel s.gb s.children
  simp only [gbCore, Prod.mk.injEq] at h
  obtain ⟨h1, h2, h3, h4, h5, h6, h7, h8⟩ := h
  simp_all [expand]

theorem expand_checked (fuel : Nat) (s : GBState) (e : Bool) :
    (expand fuel s e).gb.checked = s.gb.checked := by
  cases e
  · exact (expand_gb_false fuel s).2.2.2.2.1
  · exact (expand_gb_true fuel s).2.2.2.2.1


/-! ## Claim theorems -/

/-- C1: whenever a child's visibility change originates from the group box
itself (`ForcingVisibility` is set, as in `setChildVisibility` and
`setVisible`), `eventFilter` returns immediately, recording no
`visibilityToParent` property and forcing no visibility; hence every entry
point of the `setChildVisibility -> setVisible -> eventFilter` loop has a
fuel-independent result beyond a small constant depth: `setChildVisibility`'s
call to `setVisible` on a child never re-enters `setChildVisibility` through
the event filter, for every sequence of show/hide events. -/
theorem C1_eventFilter_guard_no_reentry :
    (∀ fuel gb c e, gb.ForcingVisibility = true →
      eventFilter fuel gb c e = (gb, c, false)) ∧
    (∀ fuel gb c, setChildVisibility (fuel + 2) gb c = setChildVisibility 2 gb c) ∧
    (∀ fuel gb c e, eventFilter (fuel + 3) gb c e = eventFilter 3 gb c e) ∧
    (∀ fuel gb c v, qtSetVisibleChild (fuel + 4) gb c v = qtSetVisibleChild 4 gb c v) :=
  ⟨eventFilter_forcing, scv_fuel_indep, eventFilter_fuel_indep, qtSetVisible_fuel_indep⟩

/-- Witness for C1 at a concrete forcing state and a concrete child. -/
theorem C1_witness :
    eventFilter 5 gbSampleForcing cSample QEventType.ShowToParent =
      (gbSampleForcing, cSample, false) ∧
    setChildVisibility 9 gbSample cSample = setChildVisibility 2 gbSample cSample :=
  ⟨C1_eventFilter_guard_no_reentry.1 5 gbSampleForcing cSample QEventType.ShowToParent rfl,
   C1_eventFilter_guard_no_reentry.2.1 7 gbSample cSample⟩

/-- C5: collapsing then expanding the group box is a geometry round trip:
`expand(false)` records the size in `OldSize` and the maximum height in
`MaxHeight` before clamping the maximum height to 22, and a following
`expand(true)` restores the maximum height and the requested size. -/
theorem C5_collapse_expand_roundtrip (fuel fuel2 : Nat) (s : GBState) :
    (expand fuel s false).gb.OldSize = s.gb.sizeQt ∧
    (expand fuel s false).gb.MaxHeight = s.gb.maxHeightQt ∧
    (expand fuel s false).gb.maxHeightQt = 22 ∧
    (expand fuel2 (expand fuel s false) true).gb.maxHeightQt = s.gb.maxHeightQt ∧
    (expand fuel2 (expand fuel s false) true).gb.sizeQt = s.gb.sizeQt := by
  obtain ⟨a1, a2, a3, a4, -, -, -, -⟩ := expand_gb_false fuel s
  obtain ⟨b1, b2, -, -, -, -, -, -⟩ := expand_gb_true fuel2 (expand fuel s false)
  exact ⟨a3, a2, a1, b1.trans a2, b2.trans a3⟩

/-- C8: the inline slot `ctkPopupWidget::showPopup(bool)` calls `showPopup()`
exactly when its argument is true and `hidePopup()` exactly when it is false,
and does nothing else. -/
theorem C8_showPopup_bool_dispatch (s : PopupState) :
    showPopupBool s true = showPopup s ∧ showPopupBool s false = hidePopup s :=
  ⟨rfl, rfl⟩

/-- C10: the reviewed plugin-framework file is build configuration only: it
declares the sources and moc inputs of `pluginSL3_test`, invokes
`ctkMacroBuildPlugin` with the `TEST_PLUGIN` flag, and consists solely of
build-declaration commands (no loading or dependency-resolution logic). -/
theorem C10_pluginSL3_build_config_only :
    resolvedPlugin pluginSL3File =
      some { name := ["pluginSL3_test"], exportDirective := ["pluginSL3_test_EXPORT"],
             srcs := ["ctkActivatorSL3.cpp"], mocSrcs := ["ctkActivatorSL3_p.h"],
             uiForms := [], resources := [],
             targetLibraries := ["computed_target_libraries"], testPlugin := true } ∧
    pluginSL3File.all CMakeCmd.isBuildDecl = true :=
  ⟨rfl, rfl⟩


/-- C2: a child whose `visibilityToParent` property is a valid `false` is kept
hidden by `setChildVisibility` (with the property preserved) even when the box
is expanded, hence on every expand; the property is recorded on a
`HideToParent` event and set back to `true` by a `ShowToParent` event. -/
theorem C2_explicitly_hidden_child_stays_hidden :
    (∀ fuel gb c, gb.createdAttr = true → c.visibilityToParent = some false →
      (setChildVisibility (fuel + 2) gb c).2.hiddenAttr = true ∧
      (setChildVisibility (fuel + 2) gb c).2.visibilityToParent = some false) ∧
    (∀ fuel s, s.gb.createdAttr = true → s.gb.ForcingVisibility = false →
      ∀ w : ChildWidget, some w ∈ (expand (fuel + 2) s true).children →
        w.visibilityToParent = some false → w.hiddenAttr = true) ∧
    (∀ fuel gb c, gb.ForcingVisibility = false →
      eventFilter (fuel + 1) gb c QEventType.HideToParent =
        (gb, { c with visibilityToParent := some false }, false)) ∧
    (∀ fuel gb c, gb.ForcingVisibility = false →
      (eventFilter (fuel + 1) gb c QEventType.ShowToParent).2.1.visibilityToParent =
        some true) := by
  refine ⟨?_, ?_, ?_, ?_⟩
  · intro fuel gb c hcr hv
    rw [scv_created _ _ _ hcr]
    refine ⟨?_, ?_⟩
    · rw [scvChild_hiddenAttr]
      simp [hv]
    · rw [scvChild_vtp]
      exact hv
  · intro fuel s hcr hf w hw hv
    rw [expand_children fuel s true hcr hf] at hw
    simp only [List.mem_map] at hw
    obtain ⟨co, hco, heq⟩ := hw
    cases co with
    | none => simp at heq
    | some w0 =>
      have hw0 : scvChild s.gb.checked w0 = w := by simpa using heq
      rw [← hw0, scvChild_hiddenAttr]
      rw [← hw0, scvChild_vtp] at hv
      simp [hv]
  · intro fuel gb c hf
    rw [eventFilter]
    simp [hf]
  · intro fuel gb c hf
    rw [eventFilter]
    simp [hf, scv_vtp]

/-- Witness for C2 at a concrete created group box and an explicitly hidden
child. -/
theorem C2_witness :
    (setChildVisibility 2 gbSample cSampleHidden).2.hiddenAttr = true ∧
    (setChildVisibility 2 gbSample cSampleHidden).2.visibilityToParent = some false :=
  C2_explicitly_hidden_child_stays_hidden.1 0 gbSample cSampleHidden rfl rfl

/-- C3: the constructor makes the box checkable and connects `toggled(bool)`
to `expand(bool)`; `expand` updates every direct widget child: collapsing
(`expand(false)`, the box unchecked) hides every widget child, and expanding
(`expand(true)`, the box checked) shows every widget child except those whose
`visibilityToParent` property is a valid `false`. -/
theorem C3_checkable_toggle_drives_children :
    (∀ s, (init s).gb.checkable = true) ∧
    (∀ fuel s b, s.gb.checkable = true → ¬(s.gb.checked = b) →
      setChecked fuel s b = expand fuel ⟨{ s.gb with checked := b }, s.children⟩ b) ∧
    (∀ fuel s, s.gb.createdAttr = true → s.gb.ForcingVisibility = false →
      s.gb.checked = false → ∀ w : ChildWidget,
        some w ∈ (expand (fuel + 2) s false).children → w.hiddenAttr = true) ∧
    (∀ fuel s, s.gb.createdAttr = true → s.gb.ForcingVisibility = false →
      s.gb.checked = true → ∀ w : ChildWidget,
        some w ∈ (expand (fuel + 2) s true).children →
          w.hiddenAttr = (w.visibilityToParent == some false)) := by
  refine ⟨fun s => rfl, ?_, ?_, ?_⟩
  · intro fuel s b hck hne
    unfold setChecked
    have : (s.gb.checked == b) = false := by
      simpa using hne
    simp [hck, this]
  · intro fuel s hcr hf hch w hw
    rw [expand_children fuel s false hcr hf] at hw
    simp only [List.mem_map] at hw
    obtain ⟨co, hco, heq⟩ := hw
    cases co with
    | none => simp at heq
    | some w0 =>
      have hw0 : scvChild s.gb.checked w0 = w := by simpa using heq
      rw [← hw0, scvChild_hiddenAttr, hch]
      cases h : w0.visibilityToParent == some false <;> simp [h]
  · intro fuel s hcr hf hch w hw
    rw [expand_children fuel s true hcr hf] at hw
    simp only [List.mem_map] at hw
    obtain ⟨co, hco, heq⟩ := hw
    cases co with
    | none => simp at heq
    | some w0 =>
      have hw0 : scvChild s.gb.checked w0 = w := by simpa using heq
      rw [← hw0, scvChild_hiddenAttr, scvChild_vtp, hch]
      cases h : w0.visibilityToParent == some false <;> simp [h]

/-- Witness for C3: a collapsed box hides its one plain widget child. -/
theorem C3_witness :
    (⟨false, true, none⟩ : ChildWidget).hiddenAttr = true :=
  C3_checkable_toggle_drives_children.2.2.1 0 sCollapsed rfl rfl rfl
    ⟨false, true, none⟩ (by decide)

/-- C4: on a `ChildAdded` event for a widget child, `childEvent` records
`visibilityToParent = false` when the child arrives already explicitly hidden
(`WA_WState_ExplicitShowHide` and `WA_WState_Hidden` both set), and applies
the current collapsed/expanded state, so a child added while the created box
is collapsed ends up hidden. -/
theorem C4_childEvent_added :
    (∀ fuel s nc, nc.explicitShowHide = true → nc.hiddenAttr = true →
      ∃ w, (childEventAdded fuel s nc).children = s.children ++ [some w] ∧
        w.visibilityToParent = some false) ∧
    (∀ fuel s nc, s.gb.createdAttr = true → s.gb.checked = false →
      ∃ w, (childEventAdded (fuel + 2) s nc).children = s.children ++ [some w] ∧
        w.hiddenAttr = true) := by
  constructor
  · intro fuel s nc hesh hhid
    refine ⟨(setChildVisibility fuel s.gb { nc with visibilityToParent := some false }).2,
      ?_, ?_⟩
    · unfold childEventAdded
      simp [hesh, hhid]
    · rw [scv_vtp]
  · intro fuel s nc hcr hch
    unfold childEventAdded
    cases h1 : nc.explicitShowHide && nc.hiddenAttr <;>
      [refine ⟨scvChild s.gb.checked nc, ?_, ?_⟩;
       refine ⟨scvChild s.gb.checked { nc with visibilityToParent := some false }, ?_, ?_⟩] <;>
      simp [scv_created _ _ _ hcr, scvChild_hiddenAttr, hch]

/-- Witness for C4: adding an explicitly hidden child to `sSample` records the
property. -/
theorem C4_witness :
    ∃ w, (childEventAdded 0 sSample cSampleHidden).children =
        sSample.children ++ [some w] ∧
      w.visibilityToParent = some false :=
  C4_childEvent_added.1 0 sSample cSampleHidden rfl rfl


/-- C6: before the group box's window is created (`WA_WState_Created` unset),
`setChildVisibility` is a no-op and a hiding `setVisible(false)` changes
nothing; the deferred per-child visibility fix-up runs exactly once, in the
first `setVisible` call that finds the widget created (which sets the
`IsStateCreated` latch), and never again once the latch is set. -/
theorem C6_precreate_noop_and_latch :
    (∀ fuel gb c, gb.createdAttr = false → setChildVisibility fuel gb c = (gb, c)) ∧
    (∀ fuel s, s.gb.createdAttr = false → s.gb.ForcingVisibility = false →
      ctkSetVisible fuel s false = s) ∧
    (∀ fuel s sh, s.gb.IsStateCreated = false → s.gb.createdAttr || sh = true →
      s.gb.ForcingVisibility = false →
      ctkSetVisible (fuel + 2) s sh =
        ⟨{ s.gb with createdAttr := true, IsStateCreated := true },
         s.children.map (Option.map (scvChild s.gb.checked))⟩) ∧
    (∀ fuel s sh, s.gb.IsStateCreated = true → s.gb.ForcingVisibility = false →
      ctkSetVisible fuel s sh =
        ⟨{ s.gb with createdAttr := s.gb.createdAttr || sh }, s.children⟩) :=
  ⟨scv_notCreated, ctkSetVisible_precreate, ctkSetVisible_fixup, ctkSetVisible_latched⟩

/-- Witness for C6 at a concrete not-yet-created group box. -/
theorem C6_witness :
    setChildVisibility 3 { gbSample with createdAttr := false } cSample =
      ({ gbSample with createdAttr := false }, cSample) :=
  C6_precreate_noop_and_latch.1 3 { gbSample with createdAttr := false } cSample rfl

/-- C7: the popup widget is attached to a base widget through
`baseWidget()`/`setBaseWidget()`; `showPopup()` opens it right under the base
widget and starts the opening fade when it is closed or closing (doing
nothing when already open or opening), and `hidePopup()` starts the closing
fade when it is open or opening (doing nothing when closed or closing). -/
theorem C7_popup_base_and_fade :
    (∀ s b, baseWidget (setBaseWidget s b) = b) ∧
    (∀ s, s.phase = PopupPhase.closedPhase ∨ s.phase = PopupPhase.closing →
      (showPopup s).phase = PopupPhase.opening) ∧
    (∀ s r, s.base = some r →
      (s.phase = PopupPhase.closedPhase ∨ s.phase = PopupPhase.closing) →
      (showPopup s).geometry = underBase r s.geometry.h) ∧
    (∀ s, s.phase = PopupPhase.openPhase ∨ s.phase = PopupPhase.opening →
      (hidePopup s).phase = PopupPhase.closing) ∧
    (∀ s, s.phase = PopupPhase.openPhase ∨ s.phase = PopupPhase.opening →
      showPopup s = s) ∧
    (∀ s, s.phase = PopupPhase.closedPhase ∨ s.phase = PopupPhase.closing →
      hidePopup s = s) := by
  refine ⟨fun s b => rfl, ?_, ?_, ?_, ?_, ?_⟩
  · intro s hp
    rcases hp with h | h <;> simp [showPopup, h]
  · intro s r hb hp
    rcases hp with h | h <;> simp [showPopup, h, hb]
  · intro s hp
    rcases hp with h | h <;> simp [hidePopup, h]
  · intro s hp
    rcases hp with h | h <;> simp [showPopup, h]
  · intro s hp
    rcases hp with h | h <;> simp [hidePopup, h]

/-- Witness for C7: showing the closed popup places it right under the base
widget and starts the opening fade. -/
theorem C7_witness :
    (showPopup popSample).phase = PopupPhase.opening ∧
    (showPopup popSample).geometry = underBase ⟨5, 7, 50, 20⟩ 80 :=
  ⟨C7_popup_base_and_fade.2.1 popSample (Or.inl rfl),
   C7_popup_base_and_fade.2.2.1 popSample ⟨5, 7, 50, 20⟩ rfl (Or.inl rfl)⟩

/-- C9: in the Qt-before-4.6 mouse handlers, a press or release of any button
other than the left button is ignored and leaves the state unchanged; a left
release toggles the checked state if and only if the box is checkable and the
release position hit-tests to the group box label or check box subcontrol. -/
theorem C9_mouse_press_release :
    (∀ s b, ¬(b = MouseButton.leftButton) → mousePressEvent s b = (s, false)) ∧
    (∀ fuel ht s b pos, ¬(b = MouseButton.leftButton) →
      mouseReleaseEvent fuel ht s b pos = (s, false)) ∧
    (∀ fuel ht s pos,
      (mouseReleaseEvent fuel ht s MouseButton.leftButton pos).1.gb.checked =
        (if s.gb.checkable && (ht pos == SubControl.groupBoxLabel
            || ht pos == SubControl.groupBoxCheckBox) then
          !s.gb.checked
        else
          s.gb.checked)) := by
  refine ⟨?_, ?_, ?_⟩
  · intro s b hb
    have : (b == MouseButton.leftButton) = false := by
      simpa using hb
    simp [mousePressEvent, this]
  · intro fuel ht s b pos hb
    have : (b == MouseButton.leftButton) = false := by
      simpa using hb
    simp [mouseReleaseEvent, this]
  · intro fuel ht s pos
    unfold mouseReleaseEvent
    simp only [beq_self_eq_true, Bool.not_true, Bool.false_eq_true, if_false]
    cases htg : s.gb.checkable && (ht pos == SubControl.groupBoxLabel
        || ht pos == SubControl.groupBoxCheckBox) with
    | false => simp [htg]
    | true =>
      have hck : s.gb.checkable = true := by
        rcases Bool.and_eq_true_iff.mp htg with ⟨h1, -⟩
        exact h1
      have hne : (s.gb.checked == !s.gb.checked) = false := by
        cases s.gb.checked <;> rfl
      simp only [htg, if_true]
      unfold setChecked
      simp only [hck, hne, Bool.not_false, Bool.true_and, if_true]
      rw [expand_checked]

/-- Witness for C9: a right-button press on `sSample` is ignored. -/
theorem C9_witness :
    mousePressEvent sSample MouseButton.rightButton = (sSample, false) :=
  C9_mouse_press_release.1 sSample MouseButton.rightButton (by decide)

end CTK
